import Mathlib

/-!
# Verification of the face-mosaic-oval compositor

Shallow embedding of the TypeScript sources `src/src/main.ts` (batch mode)
and `src/unnamed/part_000` (single-image mode).

Modelling conventions:
* Numbers that are JavaScript floats are modelled as rationals (`ℚ`); the
  decimal literals of the source (`0.10`, `0.08`, `1.12`) are exact decimals,
  so `ℚ` represents them exactly.
* A canvas surface is a total function from integer pixel coordinates to an
  abstract colour (`ℤ` stands for a packed RGBA value; no claim depends on
  colour structure).
* `drawImage` resampling is modelled as point sampling at pixel centres
  (the nearest-neighbour rule used by the canvas when
  `imageSmoothingEnabled = false`, which the source sets on both scaling
  stages); `clip()` uses the canvas nonzero-winding rule, a pixel being
  retained when its centre has nonzero winding number with respect to the
  polygon path.
* A JavaScript array of landmarks, indexed out of range yielding
  `undefined`, is a `List (Option Landmark)` read with `List.getD · none`.
-/

set_option allowUnsafeReducibility true in
attribute [semireducible] Rat.add Rat.sub Rat.mul Rat.inv

/-- A colour value (packed RGBA, abstracted). -/
abbrev Color := Int

/-- A canvas surface: colour at each integer pixel coordinate. -/
abbrev Image := Int → Int → Color

/-- A landmark as produced by the detector: normalized coordinates, with an
optional (unused) depth, mirroring `type Landmark = { x; y; z? }`. -/
structure Landmark where
  x : ℚ
  y : ℚ
  z : Option ℚ
deriving DecidableEq, Repr

/-- A pixel-space 2D point. -/
structure Pt where
  x : ℚ
  y : ℚ
deriving DecidableEq, Repr

/-- Face-oval landmark index loop, from `const FACE_OVAL = [...]` (identical
in both source files). -/
def FACE_OVAL : List Nat :=
  [10, 338, 297, 332, 284, 251, 389, 356, 454, 323,
   361, 288, 397, 365, 379, 378, 400, 377, 152, 148,
   176, 149, 150, 136, 172, 58, 132, 93, 234, 127,
   162, 21, 54, 103, 67, 109]

/-- `clamp(v, min, max) = Math.max(min, Math.min(max, v))` from the source. -/
def clamp (v lo hi : ℚ) : ℚ := max lo (min hi v)

/-- The landmark-subset selection shared by both compositors:
`FACE_OVAL.map(i => landmarks[i]).filter(Boolean).map(p => {x: p.x*imgW, y: p.y*imgH})`. -/
def selectPts (landmarks : List (Option Landmark)) (imgW imgH : ℚ) : List Pt :=
  (((FACE_OVAL.map fun i => landmarks.getD i none).filterMap id).map
    fun p => Pt.mk (p.x * imgW) (p.y * imgH))

/-- Minimum of the x coordinates of a point list.  The source folds `Math.min`
starting from `Infinity`; for the nonempty lists that reach this code this is
the same as folding from the head (`ℚ` has no infinities). -/
def ptsMinX : List Pt → ℚ
  | [] => 0
  | p :: r => r.foldl (fun m q => min m q.x) p.x

/-- Maximum of the x coordinates (fold of `Math.max`, see `ptsMinX`). -/
def ptsMaxX : List Pt → ℚ
  | [] => 0
  | p :: r => r.foldl (fun m q => max m q.x) p.x

/-- Minimum of the y coordinates (fold of `Math.min`, see `ptsMinX`). -/
def ptsMinY : List Pt → ℚ
  | [] => 0
  | p :: r => r.foldl (fun m q => min m q.y) p.y

/-- Maximum of the y coordinates (fold of `Math.max`, see `ptsMinX`). -/
def ptsMaxY : List Pt → ℚ
  | [] => 0
  | p :: r => r.foldl (fun m q => max m q.y) p.y

/-- The `{x, y, width, height}` bounding region of the compositors. -/
structure Region where
  x : ℚ
  y : ℚ
  width : ℚ
  height : ℚ
deriving DecidableEq, Repr

/-- Padded, clamped bounding region of a point list
(lines 122–129 of `main.ts`, lines 154–160 of `part_000`, which differ only
in the value of `pad`). -/
def boundingRegion (pts : List Pt) (pad imgW imgH : ℚ) : Region :=
  let minX := ptsMinX pts
  let minY := ptsMinY pts
  let maxX := ptsMaxX pts
  let maxY := ptsMaxY pts
  let w := maxX - minX
  let h := maxY - minY
  let x := clamp (minX - w * pad) 0 imgW
  let y := clamp (minY - h * pad) 0 imgH
  let cw := clamp (w * (1 + pad * 2)) 1 (imgW - x)
  let ch := clamp (h * (1 + pad * 2)) 1 (imgH - y)
  Region.mk x y cw ch

/-- Centroid expansion of `part_000` lines 130–137: arithmetic-mean centroid,
each point moved away from it by the factor `e`. -/
def expandAboutCentroid (pts : List Pt) (e : ℚ) : List Pt :=
  let cx := (pts.map Pt.x).sum / (pts.length : ℚ)
  let cy := (pts.map Pt.y).sum / (pts.length : ℚ)
  pts.map fun p => Pt.mk (cx + (p.x - cx) * e) (cy + (p.y - cy) * e)

/-- An offscreen canvas with its pixel content. -/
structure Patch where
  width : Int
  height : Int
  pix : Int → Int → Color

/-- The `tmp1` stage of `buildMosaicPatch`: extract the source rectangle
`(x, y, w, h)` into a `⌈w⌉ × ⌈h⌉` buffer, sampling at pixel centres. -/
def extractRegion (src : Image) (x y w h : ℚ) : Patch :=
  let tw : Int := ⌈w⌉
  let th : Int := ⌈h⌉
  Patch.mk tw th fun a b =>
    src ⌊x + ((a : ℚ) + 1/2) * w / (tw : ℚ)⌋ ⌊y + ((b : ℚ) + 1/2) * h / (th : ℚ)⌋

/-- A `drawImage` of a whole buffer onto an `nw × nh` buffer with
`imageSmoothingEnabled = false`: nearest-neighbour point sampling at pixel
centres.  Used for both the downscale (`tmp2`) and the upscale (`out`)
stages, the source disabling smoothing on both contexts. -/
def resampleNearest (p : Patch) (nw nh : Int) : Patch :=
  Patch.mk nw nh fun a b =>
    p.pix ⌊((a : ℚ) + 1/2) * (p.width : ℚ) / (nw : ℚ)⌋
          ⌊((b : ℚ) + 1/2) * (p.height : ℚ) / (nh : ℚ)⌋

/-- `buildMosaicPatch` (identical in both source files): extract the region,
downscale to `max(1, floor(tmp1.width / blockSize))` squared dimensions,
upscale back to the extracted dimensions. -/
def buildMosaicPatch (src : Image) (x y w h blockSize : ℚ) : Patch :=
  let tmp1 := extractRegion src x y w h
  let sw : Int := max 1 ⌊(tmp1.width : ℚ) / blockSize⌋
  let sh : Int := max 1 ⌊(tmp1.height : ℚ) / blockSize⌋
  let tmp2 := resampleNearest tmp1 sw sh
  resampleNearest tmp2 tmp1.width tmp1.height

/-- Contribution of one polygon edge to the nonzero-winding count at a query
point (the canvas `clip()` fill rule). -/
def edgeContrib (qx qy : ℚ) (a b : Pt) : Int :=
  let cross := (b.x - a.x) * (qy - a.y) - (b.y - a.y) * (qx - a.x)
  if a.y ≤ qy ∧ qy < b.y ∧ 0 < cross then 1
  else if b.y ≤ qy ∧ qy < a.y ∧ cross < 0 then -1
  else 0

/-- Edges of the closed path `moveTo pts[0]; lineTo pts[i]...; closePath()`. -/
def polyEdges : List Pt → List (Pt × Pt)
  | [] => []
  | p :: r => (p :: r).zip (r ++ [p])

/-- Winding number of the closed polygon path around a query point. -/
def winding (poly : List Pt) (qx qy : ℚ) : Int :=
  (polyEdges poly).foldl (fun acc e => acc + edgeContrib qx qy e.1 e.2) 0

/-- The clipped `drawImage(mosaicked, x, y)` of the compositors: a pixel is
replaced by the patch sample exactly when its centre is inside the clip
polygon (nonzero winding) and maps into the patch bounds; every other pixel
keeps the original surface value. -/
def applyClippedPatch (img : Image) (poly : List Pt) (patch : Patch)
    (x y : ℚ) : Image :=
  fun i j =>
    let qx := (i : ℚ) + 1/2
    let qy := (j : ℚ) + 1/2
    let sx := ⌊qx - x⌋
    let sy := ⌊qy - y⌋
    if winding poly qx qy ≠ 0 ∧ 0 ≤ sx ∧ sx < patch.width ∧ 0 ≤ sy ∧ sy < patch.height
    then patch.pix sx sy
    else img i j

/-- Shared tail of both compositors: bounding region, mosaic patch of that
region read from the current surface, then the clipped draw at the region's
top-left corner. -/
def mosaicCore (img : Image) (pts : List Pt) (pad blockSize imgW imgH : ℚ) : Image :=
  let r := boundingRegion pts pad imgW imgH
  applyClippedPatch img pts
    (buildMosaicPatch img r.x r.y r.width r.height blockSize) r.x r.y

/-- `mosaicFaceOval` of `main.ts` (batch mode): raw pixel-scaled contour
points, padding `0.10`, the caller-supplied block size. -/
def mosaicFaceOvalBatch (img : Image) (landmarks : List (Option Landmark))
    (imgW imgH blockSize : ℚ) : Image :=
  let pts := selectPts landmarks imgW imgH
  if pts.length < 3 then img
  else mosaicCore img pts (1/10) blockSize imgW imgH

/-- `Math.max(12, Math.min(32, w / 12))` of `part_000` line 152. -/
def singleEffectiveBlock (w : ℚ) : ℚ := max 12 (min 32 (w / 12))

/-- `mosaicFaceOval` of `part_000` (single-image mode): contour expanded by
`1.12` about its centroid, padding `0.08`, block size auto-derived from the
expanded bounding-box width (the function takes no block-size argument). -/
def mosaicFaceOvalSingle (img : Image) (landmarks : List (Option Landmark))
    (imgW imgH : ℚ) : Image :=
  let rawPts := selectPts landmarks imgW imgH
  if rawPts.length < 3 then img
  else
    let pts := expandAboutCentroid rawPts (28/25)
    let w := ptsMaxX pts - ptsMinX pts
    mosaicCore img pts (2/25) (singleEffectiveBlock w) imgW imgH

/-- The per-face loop of `processOneFile`:
`for (const face of faces) mosaicFaceOval(ctx, face, w, h, strength)`. -/
def applyFaces (img : Image) (faces : List (List (Option Landmark)))
    (imgW imgH blockSize : ℚ) : Image :=
  faces.foldl (fun c face => mosaicFaceOvalBatch c face imgW imgH blockSize) img

/-- The characters the sanitizer replaces: `[\\/:*?"<>|]`. -/
def badChar (c : Char) : Bool :=
  c == '\\' || c == '/' || c == ':' || c == '*' || c == '?' || c == '\"' ||
    c == '<' || c == '>' || c == '|'

/-- `name.replace(/\.[^.]+$/, "")`: the regex matches a dot followed by at
least one non-dot character at the end of the string, so the final extension
is stripped exactly when the string's last dot has a nonempty all-non-dot
suffix after it. -/
def stripExtension (cs : List Char) : List Char :=
  let r := cs.reverse
  match r.dropWhile (fun c => c != '.'), r.takeWhile (fun c => c != '.') with
  | _ :: rest, _ :: _ => rest.reverse
  | _, _ => cs

/-- `base.replace(/[\\/:*?"<>|]/g, "_")`. -/
def sanitizeChars (cs : List Char) : List Char :=
  cs.map fun c => if badChar c then '_' else c

/-- `.trim()`: whitespace removed from both ends. -/
def trimChars (cs : List Char) : List Char :=
  ((cs.dropWhile Char.isWhitespace).reverse.dropWhile Char.isWhitespace).reverse

/-- `safeBaseName` of `main.ts`: strip the extension, replace the unsafe
characters by underscores, trim, and fall back to `"image"` when the result
is the empty string (the `|| "image"` of the source). -/
def safeBaseName (name : String) : String :=
  let t := trimChars (sanitizeChars (stripExtension name.data))
  if t.isEmpty then "image" else String.mk t

/-- The archive entry name assembled by `processOneFile`. -/
def entryName (name : String) : String := safeBaseName name ++ "_mosaic.png"

/-- One input file of the batch pipeline: its name, MIME type, and decoded
raster with its dimensions (the decode itself is an external collaborator). -/
structure InputFile where
  name : String
  type : String
  width : ℚ
  height : ℚ
  image : Image

/-- One named output of the batch pipeline. -/
structure OutputEntry where
  name : String
  image : Image

/-- The `files.filter((f) => f.type.startsWith("image/"))` test. -/
def charsStartsWith : List Char → List Char → Bool
  | _, [] => true
  | [], _ :: _ => false
  | c :: cs, d :: ds => c == d && charsStartsWith cs ds

/-- Whether `handleFiles` keeps the file: its MIME type starts with
`image/`. -/
def isImageFile (f : InputFile) : Bool :=
  charsStartsWith f.type.data (("image/").data)

/-- `processOneFile` of `main.ts`, with the detector passed explicitly: when
no face is found the decoded raster is emitted unchanged, otherwise every
face is mosaicked in detection order; the output is always named
`safeBaseName(file.name) + "_mosaic.png"`. -/
def processOneFile (detect : InputFile → List (List (Option Landmark)))
    (strength : ℚ) (f : InputFile) : OutputEntry :=
  if (detect f).isEmpty then OutputEntry.mk (entryName f.name) f.image
  else
    OutputEntry.mk (entryName f.name)
      (applyFaces f.image (detect f) f.width f.height strength)

/-- The sequential loop of `handleFiles`: non-image files filtered out, one
output accumulated per remaining file, in order. -/
def handleFiles (detect : InputFile → List (List (Option Landmark)))
    (strength : ℚ) (files : List InputFile) : List OutputEntry :=
  (files.filter isImageFile).map (processOneFile detect strength)

/-- `initLandmarker` (identical logic in both source files), as a transition
on the module-level `landmarker` variable.  Arguments: the variable's value
before the call and the outcome of the awaited model load (an exception in
either `await` is `Except.error`); result: the variable's value after the
call and the call's own outcome.  When the variable is already set the load
is never consulted; when the load throws, the assignment to the variable is
never reached, so it stays `none`.  The handle itself is opaque to the code
and is abstracted as a number. -/
def initLandmarker (state : Option Nat) (load : Except String Nat) :
    Option Nat × Except String Nat :=
  match state with
  | some lm => (some lm, Except.ok lm)
  | none =>
    match load with
    | Except.ok lm => (some lm, Except.ok lm)
    | Except.error e => (none, Except.error e)

/-- A concrete test surface: a gradient, so that distinct pixels have
distinct colours. -/
def img0 : Image := fun i j => i + 100 * j

/-- A concrete landmark array holding landmarks at the face-oval indices
10, 21 and 54 only: a triangle with vertices (50, 20), (20, 80), (80, 80)
once scaled to a 100×100 image. -/
def lms1 : List (Option Landmark) :=
  (((List.replicate 55 (none : Option Landmark)).set 10 (some ⟨1/2, 1/5, none⟩)).set 21
      (some ⟨1/5, 4/5, none⟩)).set 54 (some ⟨4/5, 4/5, none⟩)

/-- A concrete landmark array describing a very small face near the right
edge of a 10×10 image (again at face-oval indices 10, 21 and 54). -/
def lms0 : List (Option Landmark) :=
  (((List.replicate 55 (none : Option Landmark)).set 10 (some ⟨47/50, 1/2, none⟩)).set 21
      (some ⟨99/100, 2/5, none⟩)).set 54 (some ⟨24/25, 3/5, none⟩)

/-- Helper: the lower clamp bound is respected. -/
theorem le_clamp_lo (v lo hi : ℚ) : lo ≤ clamp v lo hi := le_max_left _ _

/-- Helper: a clamp to `[0, hi]` stays below `hi` when `hi` is nonnegative. -/
theorem clamp_le_hi (v hi : ℚ) (h0 : 0 ≤ hi) : clamp v 0 hi ≤ hi :=
  max_le h0 (min_le_left _ _)

/-- Helper: an offset plus a value clamped to `[1, hi - offset]` stays below
`hi`, except that the lower bound `1` can push it up to `offset + 1`. -/
theorem add_clamp_le (v x hi : ℚ) : x + clamp v 1 (hi - x) ≤ max hi (x + 1) := by
  unfold clamp
  rcases le_total (min (hi - x) v) 1 with h | h
  · rw [max_eq_left h]
    exact le_max_right _ _
  · rw [max_eq_right h]
    have h1 : min (hi - x) v ≤ hi - x := min_le_left _ _
    have h2 : x + min (hi - x) v ≤ hi := by linarith
    exact le_trans h2 (le_max_left _ _)

/-- C2 (amended).  For every point set, padding ratio and nonnegative image
size, the bounding region satisfies `0 ≤ x ≤ W`, `0 ≤ y ≤ H` and
`width, height ≥ 1`; and `x + width ≤ W` and `y + height ≤ H` hold up to the
lower clamp bound: `x + width ≤ max W (x + 1)` and
`y + height ≤ max H (y + 1)` (the sums can exceed the image exactly when the
space left after clamping the corner is smaller than the minimal size 1). -/
theorem bounding_region_invariant (pts : List Pt) (pad imgW imgH : ℚ)
    (hW : 0 ≤ imgW) (hH : 0 ≤ imgH) :
    0 ≤ (boundingRegion pts pad imgW imgH).x ∧
    (boundingRegion pts pad imgW imgH).x ≤ imgW ∧
    0 ≤ (boundingRegion pts pad imgW imgH).y ∧
    (boundingRegion pts pad imgW imgH).y ≤ imgH ∧
    1 ≤ (boundingRegion pts pad imgW imgH).width ∧
    1 ≤ (boundingRegion pts pad imgW imgH).height ∧
    (boundingRegion pts pad imgW imgH).x + (boundingRegion pts pad imgW imgH).width ≤
      max imgW ((boundingRegion pts pad imgW imgH).x + 1) ∧
    (boundingRegion pts pad imgW imgH).y + (boundingRegion pts pad imgW imgH).height ≤
      max imgH ((boundingRegion pts pad imgW imgH).y + 1) := by
  simp only [boundingRegion]
  exact ⟨le_clamp_lo _ _ _, clamp_le_hi _ _ hW, le_clamp_lo _ _ _, clamp_le_hi _ _ hH,
    le_clamp_lo _ _ _, le_clamp_lo _ _ _, add_clamp_le _ _ _, add_clamp_le _ _ _⟩

/-- Witness for C2 (amended): the region of the concrete face `lms0` in a
10×10 image, with the batch padding `0.10`. -/
theorem bounding_region_invariant_witness :
    (0 : ℚ) ≤ 10 ∧
    1 ≤ (boundingRegion (selectPts lms0 10 10) (1/10) 10 10).width ∧
    0 ≤ (boundingRegion (selectPts lms0 10 10) (1/10) 10 10).x :=
  ⟨by decide,
   (bounding_region_invariant (selectPts lms0 10 10) (1/10) 10 10
      (by decide) (by decide)).2.2.2.2.1,
   (bounding_region_invariant (selectPts lms0 10 10) (1/10) 10 10
      (by decide) (by decide)).1⟩

/-- Counterexample to C2 as stated: `lms0` has three usable normalized
landmarks describing a sub-pixel-wide face near the right edge of a 10×10
image, and the computed region (batch padding `0.10`, as in `mosaicFaceOval`
of `main.ts`) has `x + width = 10.35 > 10 = W`: the minimal-size clamp
`width ≥ 1` wins over the image bound when less than one pixel of width
remains. -/
theorem bounding_region_exceeds_image :
    3 ≤ (selectPts lms0 10 10).length ∧
    (∀ p ∈ lms0, ∀ q, p = some q → 0 ≤ q.x ∧ q.x ≤ 1 ∧ 0 ≤ q.y ∧ q.y ≤ 1) ∧
    (10 : ℚ) < (boundingRegion (selectPts lms0 10 10) (1/10) 10 10).x +
      (boundingRegion (selectPts lms0 10 10) (1/10) 10 10).width := by
  decide

/-- C7.  The landmark-subset selector visits the 36 `FACE_OVAL` indices in
their fixed order, silently omits every index whose landmark is absent, and
scales each present landmark to pixel space by `(x·W, y·H)`; `filterMap`
over the index list in order is exactly this contract, order preserved. -/
theorem landmark_subset_selection (lms : List (Option Landmark)) (imgW imgH : ℚ) :
    selectPts lms imgW imgH =
      FACE_OVAL.filterMap
        (fun i => (lms.getD i none).map fun p => Pt.mk (p.x * imgW) (p.y * imgH)) ∧
    FACE_OVAL.length = 36 := by
  constructor
  · unfold selectPts
    rw [List.filterMap_map, List.map_filterMap]
    simp [Function.comp]
  · decide

/-- C9.  Initialization failure is not memoized: a failed load leaves the
handle unset, so the next call re-attempts the load from scratch (and can
succeed); after one success, every later call returns the same memoized
handle and never consults the load again. -/
theorem init_failure_not_memoized :
    (∀ e, initLandmarker none (Except.error e) = (none, Except.error e)) ∧
    (∀ e lm, initLandmarker (initLandmarker none (Except.error e)).1 (Except.ok lm) =
      (some lm, Except.ok lm)) ∧
    (∀ lm load, initLandmarker (some lm) load = (some lm, Except.ok lm)) ∧
    (∀ lm, (initLandmarker none (Except.ok lm)).1 = some lm) :=
  ⟨fun _ => rfl, fun _ _ => rfl, fun _ _ => rfl, fun _ => rfl⟩

/-- C10.  The two compositor entry points are not equivalent: on the surface
`img0` with the triangle landmarks `lms1` in a 100×100 image, the batch
compositor (raw contour, padding 0.10) leaves pixel (50, 17) at its original
value because the pixel lies strictly outside the raw contour, while the
single-image compositor (contour expanded by 1.12 about the centroid,
padding 0.08, auto block size) mosaics that pixel — so the two output
surfaces differ at (50, 17). -/
theorem compositors_not_equivalent :
    mosaicFaceOvalBatch img0 lms1 100 100 16 50 17 = img0 50 17 ∧
    (mosaicFaceOvalSingle img0 lms1 100 100 50 17 == img0 50 17) = false ∧
    (mosaicFaceOvalSingle img0 lms1 100 100 50 17 ==
      mosaicFaceOvalBatch img0 lms1 100 100 16 50 17) = false := by
  decide

/-- Helper: the batch compositor is the identity below three contour points. -/
theorem mosaicFaceOvalBatch_skip (img : Image) (lms : List (Option Landmark))
    (imgW imgH blockSize : ℚ) (h : (selectPts lms imgW imgH).length < 3) :
    mosaicFaceOvalBatch img lms imgW imgH blockSize = img := by
  simp only [mosaicFaceOvalBatch]
  rw [if_pos h]

/-- Helper: the single-image compositor is the identity below three points. -/
theorem mosaicFaceOvalSingle_skip (img : Image) (lms : List (Option Landmark))
    (imgW imgH : ℚ) (h : (selectPts lms imgW imgH).length < 3) :
    mosaicFaceOvalSingle img lms imgW imgH = img := by
  simp only [mosaicFaceOvalSingle]
  rw [if_pos h]

/-- Helper: faces with fewer than three usable points drop out of the
per-face loop without affecting the other faces. -/
theorem applyFaces_filter (imgW imgH blockSize : ℚ) :
    ∀ (faces : List (List (Option Landmark))) (img : Image),
      applyFaces img faces imgW imgH blockSize =
        applyFaces img
          (faces.filter fun face => decide (3 ≤ (selectPts face imgW imgH).length))
          imgW imgH blockSize := by
  intro faces
  induction faces with
  | nil => intro img; rfl
  | cons f fs ih =>
    intro img
    by_cases h : 3 ≤ (selectPts f imgW imgH).length
    · have hf : (f :: fs).filter
          (fun face => decide (3 ≤ (selectPts face imgW imgH).length)) =
          f :: fs.filter (fun face => decide (3 ≤ (selectPts face imgW imgH).length)) := by
        simp [List.filter_cons, h]
      rw [hf]
      exact ih (mosaicFaceOvalBatch img f imgW imgH blockSize)
    · have hf : (f :: fs).filter
          (fun face => decide (3 ≤ (selectPts face imgW imgH).length)) =
          fs.filter (fun face => decide (3 ≤ (selectPts face imgW imgH).length)) := by
        simp [List.filter_cons, h]
      rw [hf]
      have hskip : mosaicFaceOvalBatch img f imgW imgH blockSize = img :=
        mosaicFaceOvalBatch_skip img f imgW imgH blockSize (by omega)
      calc applyFaces img (f :: fs) imgW imgH blockSize
          = applyFaces (mosaicFaceOvalBatch img f imgW imgH blockSize) fs imgW imgH blockSize := rfl
        _ = applyFaces img fs imgW imgH blockSize := by rw [hskip]
        _ = applyFaces img
              (fs.filter fun face => decide (3 ≤ (selectPts face imgW imgH).length))
              imgW imgH blockSize := ih img

/-- C3.  Skip correctness: when the contour selection yields fewer than
three points, both compositors return the surface completely unchanged (a
silent no-op), and in the per-face loop such faces can be removed without
changing the result — every other face of the image is processed exactly as
before. -/
theorem skip_correctness (img : Image) (lms : List (Option Landmark))
    (imgW imgH blockSize : ℚ) (h : (selectPts lms imgW imgH).length < 3) :
    mosaicFaceOvalBatch img lms imgW imgH blockSize = img ∧
    mosaicFaceOvalSingle img lms imgW imgH = img ∧
    ∀ faces : List (List (Option Landmark)),
      applyFaces img faces imgW imgH blockSize =
        applyFaces img
          (faces.filter fun face => decide (3 ≤ (selectPts face imgW imgH).length))
          imgW imgH blockSize :=
  ⟨mosaicFaceOvalBatch_skip img lms imgW imgH blockSize h,
   mosaicFaceOvalSingle_skip img lms imgW imgH h,
   fun faces => applyFaces_filter imgW imgH blockSize faces img⟩

/-- Witness for C3: an empty landmark array yields zero contour points, and
the compositor leaves the concrete surface `img0` untouched. -/
theorem skip_correctness_witness :
    (selectPts ([] : List (Option Landmark)) 1 1).length < 3 ∧
    mosaicFaceOvalBatch img0 ([] : List (Option Landmark)) 1 1 12 = img0 :=
  ⟨by decide,
   (skip_correctness img0 ([] : List (Option Landmark)) 1 1 12 (by decide)).1⟩

/-- Helper: the shared compositor tail never touches a pixel whose centre
has winding number zero with respect to the clip polygon. -/
theorem mosaicCore_outside (img : Image) (pts : List Pt)
    (pad blockSize imgW imgH : ℚ) (i j : Int)
    (hw : winding pts ((i : ℚ) + 1/2) ((j : ℚ) + 1/2) = 0) :
    mosaicCore img pts pad blockSize imgW imgH i j = img i j := by
  simp only [mosaicCore, applyClippedPatch]
  split
  · rename_i hcond
    exact (hcond.1 hw).elim
  · rfl

/-- C1.  Clip correctness: with at least three usable contour points, every
pixel whose centre lies strictly outside the clip polygon (winding number
zero) keeps its original value — for the batch compositor the clip polygon
is the raw contour, for the single-image compositor it is the
centroid-expanded contour.  The mosaic patch drawn over the bounding region
never modifies pixels outside the polygon. -/
theorem clip_correctness (img : Image) (lms : List (Option Landmark))
    (imgW imgH blockSize : ℚ) (i j : Int)
    (h3 : 3 ≤ (selectPts lms imgW imgH).length) :
    (winding (selectPts lms imgW imgH) ((i : ℚ) + 1/2) ((j : ℚ) + 1/2) = 0 →
      mosaicFaceOvalBatch img lms imgW imgH blockSize i j = img i j) ∧
    (winding (expandAboutCentroid (selectPts lms imgW imgH) (28/25))
        ((i : ℚ) + 1/2) ((j : ℚ) + 1/2) = 0 →
      mosaicFaceOvalSingle img lms imgW imgH i j = img i j) := by
  constructor
  · intro hw
    have hb : mosaicFaceOvalBatch img lms imgW imgH blockSize =
        mosaicCore img (selectPts lms imgW imgH) (1/10) blockSize imgW imgH := by
      simp only [mosaicFaceOvalBatch]
      rw [if_neg (by omega)]
    rw [hb]
    exact mosaicCore_outside img _ _ _ imgW imgH i j hw
  · intro hw
    have hs : mosaicFaceOvalSingle img lms imgW imgH =
        mosaicCore img (expandAboutCentroid (selectPts lms imgW imgH) (28/25)) (2/25)
          (singleEffectiveBlock
            (ptsMaxX (expandAboutCentroid (selectPts lms imgW imgH) (28/25)) -
              ptsMinX (expandAboutCentroid (selectPts lms imgW imgH) (28/25))))
          imgW imgH := by
      simp only [mosaicFaceOvalSingle]
      rw [if_neg (by omega)]
    rw [hs]
    exact mosaicCore_outside img _ _ _ imgW imgH i j hw

/-- Witness for C1: the triangle face `lms1` has three usable points, pixel
(0, 0) lies outside both clip polygons, and both compositors leave it at its
original colour. -/
theorem clip_correctness_witness :
    3 ≤ (selectPts lms1 100 100).length ∧
    mosaicFaceOvalBatch img0 lms1 100 100 16 0 0 = img0 0 0 ∧
    mosaicFaceOvalSingle img0 lms1 100 100 0 0 = img0 0 0 :=
  ⟨by decide,
   (clip_correctness img0 lms1 100 100 16 0 0 (by decide)).1 (by decide),
   (clip_correctness img0 lms1 100 100 16 0 0 (by decide)).2 (by decide)⟩

/-- C5.  Block-size policy: with at least three contour points, the
single-image compositor calls the renderer with the auto-derived block size
`clamp(w/12, 12, 32)` computed from the expanded contour's bounding-box
width — its signature has no slider argument at all, so the user's slider
value cannot influence it — while the batch compositor passes the
caller-supplied slider constant `blockSize` through to the renderer
unchanged. -/
theorem block_size_policy (img : Image) (lms : List (Option Landmark))
    (imgW imgH blockSize : ℚ) (h3 : ¬ (selectPts lms imgW imgH).length < 3) :
    mosaicFaceOvalSingle img lms imgW imgH =
      mosaicCore img (expandAboutCentroid (selectPts lms imgW imgH) (28/25)) (2/25)
        (clamp ((ptsMaxX (expandAboutCentroid (selectPts lms imgW imgH) (28/25)) -
            ptsMinX (expandAboutCentroid (selectPts lms imgW imgH) (28/25))) / 12) 12 32)
        imgW imgH ∧
    mosaicFaceOvalBatch img lms imgW imgH blockSize =
      mosaicCore img (selectPts lms imgW imgH) (1/10) blockSize imgW imgH := by
  constructor
  · simp only [mosaicFaceOvalSingle, singleEffectiveBlock, clamp]
    rw [if_neg h3]
  · simp only [mosaicFaceOvalBatch]
    rw [if_neg h3]

/-- Witness for C5: the policy instantiated on the concrete face `lms1` in a
100×100 image with slider value 16. -/
theorem block_size_policy_witness :
    ¬ (selectPts lms1 100 100).length < 3 ∧
    mosaicFaceOvalBatch img0 lms1 100 100 16 =
      mosaicCore img0 (selectPts lms1 100 100) (1/10) 16 100 100 :=
  ⟨by decide, (block_size_policy img0 lms1 100 100 16 (by decide)).2⟩

/-- Helper: a downscale target `max 1 ⌊z / blockSize⌋` with `blockSize ≥ 1`
never exceeds the (positively clamped) source dimension `z`. -/
theorem max_one_floor_div_le (z : Int) (b : ℚ) (hb : 1 ≤ b) :
    max 1 ⌊(z : ℚ) / b⌋ ≤ max 1 z := by
  rcases le_or_lt z 0 with hz | hz
  · have hzq : (z : ℚ) ≤ 0 := by exact_mod_cast hz
    have hb0 : (0 : ℚ) ≤ b := by linarith
    have h1 : (z : ℚ) / b ≤ 0 := div_nonpos_iff.mpr (Or.inr ⟨hzq, hb0⟩)
    have h2 : ⌊(z : ℚ) / b⌋ ≤ 0 := Int.floor_nonpos h1
    rw [max_eq_left (by omega)]
    exact le_max_left _ _
  · have hzq : (0 : ℚ) ≤ (z : ℚ) := by exact_mod_cast le_of_lt hz
    have h1 : (z : ℚ) / b ≤ (z : ℚ) := div_le_self hzq hb
    have h2 : ⌊(z : ℚ) / b⌋ ≤ z := by
      have h3 := Int.floor_mono h1
      simpa using h3
    exact max_le_max le_rfl h2

/-- C4.  The mosaic renderer is exactly the three-stage pipeline: extract
the region into a `⌈w⌉ × ⌈h⌉` buffer, downscale it to
`max(1, ⌊⌈w⌉/blockSize⌋) × max(1, ⌊⌈h⌉/blockSize⌋)`, and upscale back to
`⌈w⌉ × ⌈h⌉` with the nearest-neighbour (no smoothing) resample; the
returned patch has exactly the extracted buffer's dimensions, and with
`blockSize ≥ 1` the downscaled dimensions are at least 1 and at most the
(positively clamped) extracted ones. -/
theorem mosaic_patch_pipeline (src : Image) (x y w h blockSize : ℚ)
    (hb : 1 ≤ blockSize) :
    buildMosaicPatch src x y w h blockSize =
      resampleNearest
        (resampleNearest (extractRegion src x y w h)
          (max 1 ⌊(⌈w⌉ : ℚ) / blockSize⌋) (max 1 ⌊(⌈h⌉ : ℚ) / blockSize⌋))
        ⌈w⌉ ⌈h⌉ ∧
    (buildMosaicPatch src x y w h blockSize).width = ⌈w⌉ ∧
    (buildMosaicPatch src x y w h blockSize).height = ⌈h⌉ ∧
    1 ≤ max 1 ⌊(⌈w⌉ : ℚ) / blockSize⌋ ∧
    max 1 ⌊(⌈w⌉ : ℚ) / blockSize⌋ ≤ max 1 ⌈w⌉ ∧
    1 ≤ max 1 ⌊(⌈h⌉ : ℚ) / blockSize⌋ ∧
    max 1 ⌊(⌈h⌉ : ℚ) / blockSize⌋ ≤ max 1 ⌈h⌉ :=
  ⟨rfl, rfl, rfl, le_max_left _ _, max_one_floor_div_le ⌈w⌉ blockSize hb,
    le_max_left _ _, max_one_floor_div_le ⌈h⌉ blockSize hb⟩

/-- Witness for C4: the pipeline on the concrete surface `img0`, region
(0, 0, 10, 7) and block size 3. -/
theorem mosaic_patch_pipeline_witness :
    (1 : ℚ) ≤ 3 ∧
    (buildMosaicPatch img0 0 0 10 7 3).width = ⌈(10 : ℚ)⌉ ∧
    max 1 ⌊(⌈(10 : ℚ)⌉ : ℚ) / 3⌋ ≤ max 1 ⌈(10 : ℚ)⌉ :=
  ⟨by decide, (mosaic_patch_pipeline img0 0 0 10 7 3 (by decide)).2.1,
    (mosaic_patch_pipeline img0 0 0 10 7 3 (by decide)).2.2.2.2.1⟩

/-- C6.  Batch completeness: after non-image filtering, the pipeline emits
exactly one named output per remaining input file, in order; and every file
on which the detector finds zero faces yields an output whose raster is
pixel-for-pixel its decoded input (named from its sanitized base name). -/
theorem batch_completeness (detect : InputFile → List (List (Option Landmark)))
    (strength : ℚ) (files : List InputFile) :
    (handleFiles detect strength files).length = (files.filter isImageFile).length ∧
    ∀ (i : Nat) (f : InputFile), (files.filter isImageFile)[i]? = some f →
      detect f = [] →
      (handleFiles detect strength files)[i]? =
        some (OutputEntry.mk (entryName f.name) f.image) := by
  constructor
  · simp [handleFiles]
  · intro i f hf hdet
    simp [handleFiles, hf, processOneFile, hdet]

/-- Witness for C6: a one-file batch whose detector finds no face passes the
decoded raster through under the sanitized name. -/
theorem batch_completeness_witness :
    (handleFiles (fun _ => []) 12 [InputFile.mk ("a.png") ("image/png") 1 1 img0]).length =
      ([InputFile.mk ("a.png") ("image/png") 1 1 img0].filter isImageFile).length ∧
    (handleFiles (fun _ => []) 12 [InputFile.mk ("a.png") ("image/png") 1 1 img0])[0]? =
      some (OutputEntry.mk (entryName ("a.png")) img0) :=
  ⟨(batch_completeness (fun _ => []) 12 [InputFile.mk ("a.png") ("image/png") 1 1 img0]).1,
   (batch_completeness (fun _ => []) 12 [InputFile.mk ("a.png") ("image/png") 1 1 img0]).2
      0 (InputFile.mk ("a.png") ("image/png") 1 1 img0) (by rfl) rfl⟩

/-- Helper: sanitized characters are never in the replaced set. -/
theorem badChar_sanitize (l : List Char) :
    ∀ c ∈ sanitizeChars l, badChar c = false := by
  intro c hc
  rcases List.mem_map.mp hc with ⟨a, _, ha⟩
  by_cases hb : badChar a
  · rw [← ha, if_pos hb]
    decide
  · rw [← ha, if_neg hb]
    simpa using hb

/-- Helper: trimming only removes characters. -/
theorem mem_trimChars (c : Char) (l : List Char) (hc : c ∈ trimChars l) : c ∈ l := by
  unfold trimChars at hc
  rw [List.mem_reverse] at hc
  have h1 := (List.dropWhile_sublist _).mem hc
  rw [List.mem_reverse] at h1
  exact (List.dropWhile_sublist _).mem h1

/-- Helper: every character of a sanitized base name is outside the replaced
set. -/
theorem safeBaseName_chars (name : String) :
    ∀ c ∈ (safeBaseName name).data, badChar c = false := by
  intro c hc
  unfold safeBaseName at hc
  by_cases he : (trimChars (sanitizeChars (stripExtension name.data))).isEmpty
  · rw [if_pos he] at hc
    have himg : ∀ x ∈ ("image" : String).data, badChar x = false := by decide
    exact himg c hc
  · rw [if_neg he] at hc
    exact badChar_sanitize _ c (mem_trimChars c _ hc)

/-- C8.  Archive entry naming: the batch output entry for a file is
`<sanitized-basename>_mosaic.png`, the sanitizer stripping the final
extension, replacing each of `\ / : * ? " < > |` by `_` and falling back to
the default name `image` when the result is empty; in particular
`a/b:c*.png` yields `a_b_c__mosaic.png`.  The sanitized base name is never
empty and never contains a replaced character. -/
theorem archive_entry_naming :
    entryName ("a/b:c*.png") = "a_b_c__mosaic.png" ∧
    entryName ("photo.JPG") = "photo_mosaic.png" ∧
    safeBaseName (".png") = "image" ∧
    (∀ name : String, (safeBaseName name).data.isEmpty = false) ∧
    (∀ name : String, (safeBaseName name).data.all (fun c => !badChar c) = true) := by
  refine ⟨by decide, by decide, by decide, ?_, ?_⟩
  · intro name
    unfold safeBaseName
    by_cases he : (trimChars (sanitizeChars (stripExtension name.data))).isEmpty
    · rw [if_pos he]
      decide
    · rw [if_neg he]
      simpa using he
  · intro name
    rw [List.all_eq_true]
    intro c hc
    simpa using safeBaseName_chars name c hc
